import Mathlib

/-!
Verification of `check_cisco_stack.py`, a Nagios plugin that polls a Cisco
switch stack over SNMP and reduces per-member state plus ring redundancy to
a plugin verdict.  The Python functions are embedded shallowly: dictionaries
become association lists (iteration order = list order), SNMP walk results
become lists of (oid, value) records, fallible collection becomes `Except`,
and `sys.exit` paths become explicit error values.
-/

namespace CheckCiscoStack

/-- Exit code constant `OK = 0` from the source. -/
def OK : Nat := 0

/-- Exit code constant `WARNING = 1` from the source. -/
def WARNING : Nat := 1

/-- Exit code constant `CRITICAL = 2` from the source. -/
def CRITICAL : Nat := 2

/-- Exit code constant `UNKNOWN = 3` from the source. -/
def UNKNOWN : Nat := 3

/-- `__program_name__ = 'Cisco Stack'`. -/
def program_name : String := "Cisco Stack"

/-- `exit_status(x)`: dict lookup `{0:'OK',1:'WARNING',2:'CRITICAL',3:'UNKNOWN'}.get(x,'UNKNOWN')`. -/
def exit_status (x : Nat) : String :=
  (([(0, "OK"), (1, "WARNING"), (2, "CRITICAL"), (3, "UNKNOWN")] :
      List (Nat × String)).lookup x).getD "UNKNOWN"

/-- The line printed by `plugin_exit(exitcode, message)`:
`'{0} {1} - {2}'.format(__program_name__, exit_status(exitcode), message)`. -/
def plugin_line (exitcode : Nat) (message : String) : String :=
  program_name ++ " " ++ exit_status exitcode ++ " - " ++ message

/-- The fixed code table of `stack_state(x)` as an association list
(the Python dict literal, in source order). -/
def stack_state_table : List (String × String) :=
  [("1", "waiting"), ("2", "progressing"), ("3", "added"), ("4", "ready"),
   ("5", "sdmMismatch"), ("6", "verMismatch"), ("7", "featureMismatch"),
   ("8", "newMasterInit"), ("9", "provisioned"), ("10", "invalid"),
   ("11", "removed")]

/-- `stack_state(x)`: `{...}.get(x, 'UNKNOWN')`. -/
def stack_state (x : String) : String :=
  (stack_state_table.lookup x).getD "UNKNOWN"

/-- One record of the `member_table` dict as consumed by `evaluate_results`:
keys `'number'`, `'index'`, `'status_num'`, `'status'`. -/
structure Member where
  number : String
  index : String
  status_num : String
  status : String
deriving DecidableEq, Repr

/-- The fragment `"{0}: {1}, ".format(member['number'], member['status'])`
appended for the entry `(i, member)` of `stack.items()`. -/
def member_fragment (im : String × Member) : String :=
  im.2.number ++ ": " ++ im.2.status ++ ", "

/-- One iteration of the member loop in `evaluate_results`: append the
member fragment to the message list; if `member['status_num'] != '4'`
set `result = CRITICAL`. -/
def eval_step (acc : List String × Nat) (im : String × Member) : List String × Nat :=
  (acc.1 ++ [member_fragment im], if im.2.status_num ≠ "4" then CRITICAL else acc.2)

/-- `evaluate_results(stack, ring)`.  `stack` is the member dict as an
association list of `(index, member)` in iteration order; `ring` is the
ring status string.  Returns `(result, ''.join(message))`. -/
def evaluate_results (stack : List (String × Member)) (ring : String) : Nat × String :=
  let acc := stack.foldl eval_step (["Members: "], OK)
  let fin :=
    if ring = "1" then
      (acc.1 ++ ["Stack Ring is redundant"], acc.2)
    else
      (acc.1 ++ ["Stack Ring is non-redundant"], if acc.2 = OK then WARNING else acc.2)
  (fin.2, String.join fin.1)

/-- `stack.any (member has status_num different from '4')`: the condition
under which the member loop of `evaluate_results` sets CRITICAL. -/
def has_bad (stack : List (String × Member)) : Bool :=
  stack.any fun im => im.2.status_num != "4"

/-! ## Collection (`get_stack_info`, `get_ring_status`) -/

/-- One entry of an SNMP walk result as used by the collectors: the
easysnmp record's `.oid` and `.value` fields. -/
structure SnmpVar where
  oid : String
  value : String
deriving DecidableEq, Repr

/-- `member.oid.rsplit('.').pop()`: the final dot-separated arc of the OID
(the characters after the last `'.'`, or the whole string when there is no
dot), written as a structural fold so it reduces definitionally. -/
def last_arc (oid : String) : String :=
  oid.data.foldl (fun acc c => if c = '.' then "" else acc.push c) ""

/-- A record of `member_table` as built by `get_stack_info`.  After the
first walk loop only `'number'` and `'index'` are present; the second
walk loop adds `'status_num'` and `'status'`, so those two are optional. -/
structure PartMember where
  number : String
  index : String
  status_num : Option String
  status : Option String
deriving DecidableEq, Repr

/-- The member dict built by `get_stack_info`, in insertion order. -/
abbrev MemberTable := List (String × PartMember)

/-- How a run can abort before returning: `exitErr` models a call to
`plugin_exit(code, message)` (print and `sys.exit`), `keyError` models a
Python `KeyError` raised by `member_table[index]` on a missing key. -/
inductive RunError where
  | exitErr (code : Nat) (message : String)
  | keyError (key : String)
deriving DecidableEq, Repr

/-- Python dict assignment `member_table[k] = v`: replace in place if the
key exists (keeping its position), otherwise append. -/
def insert_assoc (t : MemberTable) (k : String) (v : PartMember) : MemberTable :=
  if (t.lookup k).isSome then
    t.map fun kv => if kv.1 = k then (k, v) else kv
  else
    t ++ [(k, v)]

/-- The first loop of `get_stack_info`: for each walk entry build
`a = {'number': member.value, 'index': member.oid.rsplit('.').pop()}` and
store it as `member_table[a['index']] = a`. -/
def number_table (w : List SnmpVar) : MemberTable :=
  w.foldl (fun t m => insert_assoc t (last_arc m.oid) ⟨m.value, last_arc m.oid, none, none⟩) []

/-- The second loop of `get_stack_info`: for each status walk entry set
`member_table[index]['status_num']` and `['status']`.  Looking up a
missing `index` raises `KeyError` in Python, modelled as `RunError.keyError`. -/
def apply_statuses : MemberTable → List SnmpVar → Except RunError MemberTable
  | t, [] => .ok t
  | t, m :: rest =>
    match t.lookup (last_arc m.oid) with
    | none => .error (.keyError (last_arc m.oid))
    | some r =>
      apply_statuses
        (insert_assoc t (last_arc m.oid)
          { r with status_num := some m.value, status := some (stack_state m.value) })
        rest

/-- `get_stack_info(remote_ip, community)` with the two SNMP bulkwalk
results (`.1.3.6.1.4.1.9.9.500.1.2.1.1.1` and `....1.2.1.1.6`) abstracted
as inputs `w1`, `w2`.  An empty walk result triggers
`plugin_exit(CRITICAL, ...)`. -/
def get_stack_info (w1 w2 : List SnmpVar) : Except RunError MemberTable :=
  if w1 = [] then .error (.exitErr CRITICAL "Unable to retrieve SNMP stack table")
  else if w2 = [] then .error (.exitErr CRITICAL "Unable to retrieve SNMP stack status")
  else apply_statuses (number_table w1) w2

/-- `get_ring_status(remote_ip, community)` with the scalar GET on
`.1.3.6.1.4.1.9.9.500.1.1.3.0` abstracted as an input: `none` models a
falsy result (`if not ring_status_oid`), which triggers
`plugin_exit(CRITICAL, ...)`; otherwise the value is returned. -/
def get_ring_status (res : Option String) : Except RunError String :=
  match res with
  | none => .error (.exitErr CRITICAL "Unable to retrieve SNMP ring status")
  | some v => .ok v

/-- The collection-then-evaluation pipeline of `main()` on the default
(non-subcommand) path, parametrised by an arbitrary evaluator `ev` so
that theorems can state that the evaluator is not consulted when a
collection step aborts. -/
def run_with (ev : MemberTable → String → Nat × String) (w1 w2 : List SnmpVar)
    (res : Option String) : Except RunError (Nat × String) := do
  let stack ← get_stack_info w1 w2
  let ring ← get_ring_status res
  pure (ev stack ring)

/-- True when the run aborted through `plugin_exit` (as opposed to an
uncaught `KeyError`). -/
def is_exit_error (e : Except RunError MemberTable) : Bool :=
  match e with
  | .error (.exitErr _ _) => true
  | _ => false

/-! ## CLI layer -/

/-- Whether an argv provides the `-H`/`--host` option in one of the forms
argparse accepts for an option taking a value: a separate `-H`/`--host`
token followed by the value, the glued short form `-H<value>`, or
`--host=<value>`. -/
def argv_has_host (argv : List String) : Bool :=
  argv.any fun a =>
    a = "-H" || a = "--host" || a.startsWith "--host=" ||
      (a.startsWith "-H" && a != "-H")

/-- Embedding of `args = parser.parse_args()`, the first statement of
`main()`, for the parser configured at module load with
`parser.add_argument("-H", "--host", ..., required=True)`.  Per the
argparse contract, a missing required option makes `parse_args` print the
usage line and an error to stderr and call `sys.exit(2)` -- exit status 2,
before any further statement of `main()` runs. -/
def cli_parse (argv : List String) : Except (Nat × String) Unit :=
  if argv_has_host argv then .ok ()
  else .error (2, "check_cisco_stack.py: error: the following arguments are required: -H/--host")

/-- `main()` on the default path, from argv to the run outcome: argparse
first (aborting with its own exit status on a missing required argument),
then collection and evaluation. -/
def run_cli (argv : List String) (ev : MemberTable → String → Nat × String)
    (w1 w2 : List SnmpVar) (res : Option String) : Except RunError (Nat × String) :=
  match cli_parse argv with
  | .error e => .error (.exitErr e.1 e.2)
  | .ok _ => run_with ev w1 w2 res

/-! ## Concrete data used to instantiate the theorems -/

/-- The two-member all-ready stack of the spec's end-to-end scenario:
`{'1001': {number:'1', status_num:'4'}, '2001': {number:'2', status_num:'4'}}`. -/
def example_stack : List (String × Member) :=
  [("1001", ⟨"1", "1001", "4", "ready"⟩), ("2001", ⟨"2", "2001", "4", "ready"⟩)]

/-- The same two members in the opposite iteration order. -/
def example_stack_swapped : List (String × Member) :=
  [("2001", ⟨"2", "2001", "4", "ready"⟩), ("1001", ⟨"1", "1001", "4", "ready"⟩)]

/-- Two members, the second not ready (`status_num = '9'`, provisioned). -/
def example_stack_bad : List (String × Member) :=
  [("1001", ⟨"1", "1001", "4", "ready"⟩), ("2001", ⟨"2", "2001", "9", "provisioned"⟩)]

/-- A one-entry number walk result with derived index `1001`. -/
def example_w1 : List SnmpVar :=
  [⟨"1.3.6.1.4.1.9.9.500.1.2.1.1.1.1001", "1"⟩]

/-- A status walk result matching `example_w1` (same index `1001`). -/
def example_w2 : List SnmpVar :=
  [⟨"1.3.6.1.4.1.9.9.500.1.2.1.1.6.1001", "4"⟩]

/-- A status walk result whose derived index `2001` has no number entry. -/
def example_w2_asym : List SnmpVar :=
  [⟨"1.3.6.1.4.1.9.9.500.1.2.1.1.6.2001", "4"⟩]

/-- The table `get_stack_info` builds from `example_w1` and `example_w2`. -/
def example_table : MemberTable :=
  [("1001", ⟨"1", "1001", some "4", some "ready"⟩)]

/-- An arbitrary evaluator used to instantiate theorems that hold for every
evaluator. -/
def trivial_eval : MemberTable → String → Nat × String :=
  fun _ _ => (OK, "")

end CheckCiscoStack

namespace CheckCiscoStack

/-! ## Helper lemmas about the evaluator -/

theorem eval_foldl_fst (stack : List (String × Member)) (msgs : List String) (r : Nat) :
    (stack.foldl eval_step (msgs, r)).1 = msgs ++ stack.map member_fragment := by
  induction stack generalizing msgs r with
  | nil => simp
  | cons hd tl ih =>
    simp only [List.foldl_cons, List.map_cons, eval_step, ih]
    simp

theorem eval_foldl_snd (stack : List (String × Member)) (msgs : List String) (r : Nat) :
    (stack.foldl eval_step (msgs, r)).2 =
      if has_bad stack then CRITICAL else r := by
  induction stack generalizing msgs r with
  | nil => simp [has_bad]
  | cons hd tl ih =>
    simp only [List.foldl_cons, eval_step]
    by_cases h : hd.2.status_num = "4"
    · rw [if_neg (by simp [h]), ih]
      have hb : has_bad (hd :: tl) = has_bad tl := by
        simp only [has_bad, List.any_cons, h, bne_self_eq_false, Bool.false_or]
      rw [hb]
    · rw [if_pos h, ih]
      have hb : has_bad (hd :: tl) = true := by
        simp [has_bad, bne_iff_ne, h]
      rw [hb]
      simp

theorem evaluate_results_fst (stack : List (String × Member)) (ring : String) :
    (evaluate_results stack ring).1 =
      if has_bad stack then CRITICAL
      else if ring = "1" then OK else WARNING := by
  unfold evaluate_results
  by_cases hr : ring = "1" <;> cases h : has_bad stack <;>
    simp [hr, eval_foldl_snd, h, OK, WARNING, CRITICAL]

theorem evaluate_results_snd (stack : List (String × Member)) (ring : String) :
    (evaluate_results stack ring).2 =
      "Members: " ++ String.join (stack.map member_fragment) ++
        (if ring = "1" then "Stack Ring is redundant" else "Stack Ring is non-redundant") := by
  unfold evaluate_results
  by_cases hr : ring = "1" <;>
    · simp only [hr, if_true, if_false, eq_self_iff_true, eval_foldl_fst]
      apply String.ext
      simp [String.data_join]

theorem member_fragment_ready (im : String × Member) (h : im.2.status = "ready") :
    member_fragment im = im.2.number ++ ": ready, " := by
  unfold member_fragment
  rw [h, String.append_assoc, String.append_assoc]
  congr 1

theorem has_bad_eq_false (stack : List (String × Member))
    (hall : ∀ im ∈ stack, im.2.status_num = "4") : has_bad stack = false := by
  rw [has_bad, List.any_eq_false]
  intro x hx
  simp [hall x hx]

theorem plugin_line_ok (m : String) : plugin_line OK m = "Cisco Stack OK - " ++ m := by
  have h : ((program_name ++ " ") ++ exit_status OK) ++ " - " = "Cisco Stack OK - " := by decide
  calc plugin_line OK m = (((program_name ++ " ") ++ exit_status OK) ++ " - ") ++ m := rfl
    _ = "Cisco Stack OK - " ++ m := by rw [h]

theorem any_of_perm {p : (String × Member) → Bool} {s1 s2 : List (String × Member)}
    (hp : s1.Perm s2) : s1.any p = s2.any p := by
  cases h1 : s1.any p <;> cases h2 : s2.any p
  · rfl
  · rw [List.any_eq_false] at h1
    rw [List.any_eq_true] at h2
    obtain ⟨x, hx, hpx⟩ := h2
    exact absurd hpx (h1 x (hp.mem_iff.mpr hx))
  · rw [List.any_eq_true] at h1
    rw [List.any_eq_false] at h2
    obtain ⟨x, hx, hpx⟩ := h1
    exact absurd hpx (h2 x (hp.mem_iff.mp hx))
  · rfl

theorem lookup_map_replace (t : MemberTable) (k0 : String) (v : PartMember) (k : String)
    (hk : t.lookup k = none) :
    (t.map fun kv => if kv.1 = k0 then (k0, v) else kv).lookup k = none := by
  induction t with
  | nil => rfl
  | cons hd tl ih =>
    rw [List.lookup] at hk
    rcases hbeq : (k == hd.1) with _ | _
    · rw [hbeq] at hk
      simp only at hk
      simp only [List.map_cons]
      by_cases hh : hd.1 = k0
      · have hkk0 : (k == k0) = false := by rw [← hh]; exact hbeq
        rw [if_pos hh, List.lookup, hkk0]
        exact ih hk
      · rw [if_neg hh, List.lookup, hbeq]
        exact ih hk
    · rw [hbeq] at hk
      simp at hk

theorem lookup_insert_assoc_none (t : MemberTable) (k0 k : String) (v : PartMember)
    (h0 : (t.lookup k0).isSome) (hk : t.lookup k = none) :
    (insert_assoc t k0 v).lookup k = none := by
  unfold insert_assoc
  rw [if_pos h0]
  exact lookup_map_replace t k0 v k hk

theorem apply_statuses_keyerror (w : List SnmpVar) (t : MemberTable) (m : SnmpVar)
    (hm : m ∈ w) (hmiss : t.lookup (last_arc m.oid) = none) :
    ∃ k, apply_statuses t w = .error (.keyError k) := by
  induction w generalizing t with
  | nil => cases hm
  | cons hd tl ih =>
    rw [apply_statuses]
    rcases hl : t.lookup (last_arc hd.oid) with _ | r
    · exact ⟨last_arc hd.oid, rfl⟩
    · have hm' : m ∈ tl := by
        rcases List.mem_cons.mp hm with h | h
        · exfalso
          rw [h] at hmiss
          rw [hmiss] at hl
          cases hl
        · exact h
      exact ih _ hm'
        (lookup_insert_assoc_none t (last_arc hd.oid) (last_arc m.oid) _
          (by rw [hl]; rfl) hmiss)

/-! ## Claims -/

/-- C1: for every non-empty member mapping in which every member has
status code "4" (with the status name derived from it, as the collector
guarantees) and ring equal to "1", `evaluate_results` returns severity OK
and the message "Members: " followed by one "(number): ready, " fragment
per member followed by "Stack Ring is redundant"; the reported line is
"Cisco Stack OK - " followed by that message. -/
theorem c1_all_ready_redundant_ok (stack : List (String × Member)) (ring : String)
    (hne : stack ≠ [])
    (hall : ∀ im ∈ stack, im.2.status_num = "4" ∧ im.2.status = stack_state im.2.status_num)
    (hring : ring = "1") :
    evaluate_results stack ring =
      (OK, "Members: " ++ String.join (stack.map fun im => im.2.number ++ ": ready, ") ++
        "Stack Ring is redundant") ∧
    plugin_line (evaluate_results stack ring).1 (evaluate_results stack ring).2 =
      "Cisco Stack OK - " ++
        ("Members: " ++ String.join (stack.map fun im => im.2.number ++ ": ready, ") ++
          "Stack Ring is redundant") := by
  have hbadf : has_bad stack = false := has_bad_eq_false stack fun im h => (hall im h).1
  have h1 : (evaluate_results stack ring).1 = OK := by
    rw [evaluate_results_fst, hbadf, hring]
    simp
  have hmap : stack.map member_fragment = stack.map fun im => im.2.number ++ ": ready, " := by
    apply List.map_congr_left
    intro im him
    apply member_fragment_ready
    rw [(hall im him).2, (hall im him).1]
    rfl
  have h2 : (evaluate_results stack ring).2 =
      "Members: " ++ String.join (stack.map fun im => im.2.number ++ ": ready, ") ++
        "Stack Ring is redundant" := by
    rw [evaluate_results_snd, hmap, hring]
    simp
  exact ⟨Prod.ext_iff.mpr ⟨h1, h2⟩, by rw [h1, h2, plugin_line_ok]⟩

/-- Witness for C1 at the spec's two-member end-to-end scenario. -/
theorem c1_all_ready_redundant_ok_witness :
    evaluate_results example_stack "1" =
      (OK, "Members: 1: ready, 2: ready, Stack Ring is redundant") ∧
    plugin_line (evaluate_results example_stack "1").1 (evaluate_results example_stack "1").2 =
      "Cisco Stack OK - Members: 1: ready, 2: ready, Stack Ring is redundant" := by
  have h := c1_all_ready_redundant_ok example_stack "1" (by decide) (by decide) rfl
  exact ⟨h.1.trans (by decide), h.2.trans (by decide)⟩

/-- C2: for every member mapping and ring value, if some member has a
status code different from "4", `evaluate_results` returns severity
CRITICAL; in particular a redundant ring never downgrades it. -/
theorem c2_bad_member_critical (stack : List (String × Member)) (ring : String)
    (im : String × Member) (him : im ∈ stack) (hbad : im.2.status_num ≠ "4") :
    (evaluate_results stack ring).1 = CRITICAL := by
  rw [evaluate_results_fst]
  have hb : has_bad stack = true := by
    rw [has_bad, List.any_eq_true]
    exact ⟨im, him, by simp [hbad]⟩
  rw [hb]
  simp

/-- Witness for C2: one provisioned member plus a redundant ring is still
CRITICAL. -/
theorem c2_bad_member_critical_witness :
    (evaluate_results example_stack_bad "1").1 = CRITICAL :=
  c2_bad_member_critical example_stack_bad "1"
    ("2001", ⟨"2", "2001", "9", "provisioned"⟩) (by decide) (by decide)

/-- C3: for every non-empty member mapping in which every member has
status code "4", if ring is anything other than "1", `evaluate_results`
returns severity WARNING (never CRITICAL) and the message ends with
"Stack Ring is non-redundant". -/
theorem c3_all_ready_nonredundant_warning (stack : List (String × Member)) (ring : String)
    (hne : stack ≠ []) (hall : ∀ im ∈ stack, im.2.status_num = "4") (hring : ring ≠ "1") :
    (evaluate_results stack ring).1 = WARNING ∧
    ∃ p, (evaluate_results stack ring).2 = p ++ "Stack Ring is non-redundant" := by
  constructor
  · rw [evaluate_results_fst, has_bad_eq_false stack hall, if_neg hring]
    simp
  · refine ⟨"Members: " ++ String.join (stack.map member_fragment), ?_⟩
    rw [evaluate_results_snd, if_neg hring]

/-- Witness for C3 at the two-member all-ready stack with ring "0". -/
theorem c3_all_ready_nonredundant_warning_witness :
    (evaluate_results example_stack "0").1 = WARNING ∧
    ∃ p, (evaluate_results example_stack "0").2 = p ++ "Stack Ring is non-redundant" :=
  c3_all_ready_nonredundant_warning example_stack "0" (by decide) (by decide) (by decide)

/-- C4: for every status code "1".."11", `stack_state` returns the fixed
table name, and for every input that is not one of the table keys
(including non-numeric strings) it returns the sentinel "UNKNOWN" rather
than raising an error. -/
theorem c4_stack_state_lookup :
    (stack_state "1" = "waiting" ∧ stack_state "2" = "progressing" ∧
     stack_state "3" = "added" ∧ stack_state "4" = "ready" ∧
     stack_state "5" = "sdmMismatch" ∧ stack_state "6" = "verMismatch" ∧
     stack_state "7" = "featureMismatch" ∧ stack_state "8" = "newMasterInit" ∧
     stack_state "9" = "provisioned" ∧ stack_state "10" = "invalid" ∧
     stack_state "11" = "removed") ∧
    ∀ x : String, x ∉ stack_state_table.map Prod.fst → stack_state x = "UNKNOWN" := by
  constructor
  · exact ⟨rfl, rfl, rfl, rfl, rfl, rfl, rfl, rfl, rfl, rfl, rfl⟩
  · intro x hx
    simp only [stack_state_table, List.map_cons, List.map_nil, List.mem_cons,
      List.not_mem_nil, or_false, not_or] at hx
    obtain ⟨h1, h2, h3, h4, h5, h6, h7, h8, h9, h10, h11⟩ := hx
    simp only [stack_state, stack_state_table, List.lookup,
      beq_eq_false_iff_ne.mpr h1, beq_eq_false_iff_ne.mpr h2,
      beq_eq_false_iff_ne.mpr h3, beq_eq_false_iff_ne.mpr h4,
      beq_eq_false_iff_ne.mpr h5, beq_eq_false_iff_ne.mpr h6,
      beq_eq_false_iff_ne.mpr h7, beq_eq_false_iff_ne.mpr h8,
      beq_eq_false_iff_ne.mpr h9, beq_eq_false_iff_ne.mpr h10,
      beq_eq_false_iff_ne.mpr h11, Option.getD_none]

/-- Witness for C4: a non-numeric code maps to "UNKNOWN". -/
theorem c4_stack_state_lookup_witness : stack_state "notacode" = "UNKNOWN" :=
  c4_stack_state_lookup.2 "notacode" (by decide)

/-- C5: when any of the three SNMP retrievals comes back empty, the run
aborts through `plugin_exit` with CRITICAL and the message naming the
failed retrieval, and the evaluator (universally quantified here) is
never invoked. -/
theorem c5_collection_failure_critical :
    (∀ ev w2 res, run_with ev [] w2 res =
      .error (.exitErr CRITICAL "Unable to retrieve SNMP stack table")) ∧
    (∀ ev (w1 : List SnmpVar) res, w1 ≠ [] → run_with ev w1 [] res =
      .error (.exitErr CRITICAL "Unable to retrieve SNMP stack status")) ∧
    (∀ ev w1 w2 t, get_stack_info w1 w2 = .ok t → run_with ev w1 w2 none =
      .error (.exitErr CRITICAL "Unable to retrieve SNMP ring status")) := by
  refine ⟨fun ev w2 res => rfl, fun ev w1 res h1 => ?_, fun ev w1 w2 t h => ?_⟩
  · simp [run_with, get_stack_info, h1, Bind.bind, Except.bind]
  · simp [run_with, h, get_ring_status, Bind.bind, Except.bind]

/-- Witness for C5: each of the three empty-retrieval scenarios at
concrete inputs. -/
theorem c5_collection_failure_critical_witness :
    run_with trivial_eval [] [] none =
      .error (.exitErr CRITICAL "Unable to retrieve SNMP stack table") ∧
    run_with trivial_eval example_w1 [] none =
      .error (.exitErr CRITICAL "Unable to retrieve SNMP stack status") ∧
    run_with trivial_eval example_w1 example_w2 none =
      .error (.exitErr CRITICAL "Unable to retrieve SNMP ring status") :=
  ⟨c5_collection_failure_critical.1 trivial_eval [] none,
   c5_collection_failure_critical.2.1 trivial_eval example_w1 none (by decide),
   c5_collection_failure_critical.2.2 trivial_eval example_w1 example_w2 example_table rfl⟩

/-- C6 counterexample: on an asymmetric walk result (status index `2001`
with no matching number entry) `get_stack_info` propagates the
undefined-key fault (`KeyError`) instead of aborting through
`plugin_exit(CRITICAL, ...)`, so collection does not fail with a
`CollectionError` as claimed. -/
theorem c6_asym_walk_counterexample :
    get_stack_info example_w1 example_w2_asym = .error (.keyError "2001") ∧
    is_exit_error (get_stack_info example_w1 example_w2_asym) = false :=
  ⟨rfl, rfl⟩

/-- C6 (amended): when a status entry's derived index has no matching
number entry, collection aborts with the undefined-key fault (`KeyError`)
of `member_table[index]`, not with a `CollectionError`/`plugin_exit`. -/
theorem c6_asym_walk_keyerror (w1 w2 : List SnmpVar) (m : SnmpVar) (hm : m ∈ w2)
    (hmiss : (number_table w1).lookup (last_arc m.oid) = none)
    (h1 : w1 ≠ []) (h2 : w2 ≠ []) :
    ∃ k, get_stack_info w1 w2 = .error (.keyError k) := by
  rw [get_stack_info, if_neg h1, if_neg h2]
  exact apply_statuses_keyerror w2 (number_table w1) m hm hmiss

/-- Witness for the amended C6 at the concrete asymmetric walk. -/
theorem c6_asym_walk_keyerror_witness :
    ∃ k, get_stack_info example_w1 example_w2_asym = .error (.keyError k) :=
  c6_asym_walk_keyerror example_w1 example_w2_asym
    ⟨"1.3.6.1.4.1.9.9.500.1.2.1.1.6.2001", "4"⟩
    (by decide) (by decide) (by decide) (by decide)

/-- C7: with `--host` missing from argv, `parser.parse_args()` (the first
statement of `main()`) aborts with argparse's usage error and exit status
2 -- not `UNKNOWN` (3) through `usage()` as the spec claims -- and neither
the SNMP collectors nor the evaluator run (the outcome is the same for
every walk result, ring result and evaluator). -/
theorem c7_missing_host_argparse_exit :
    ∀ ev w1 w2 res,
      run_cli [] ev w1 w2 res =
        .error (.exitErr 2
          "check_cisco_stack.py: error: the following arguments are required: -H/--host") ∧
      (2 : Nat) ≠ UNKNOWN :=
  fun ev w1 w2 res => ⟨rfl, by decide⟩

/-- C8: two member mappings containing the same members in different
iteration orders get the same severity from `evaluate_results`, for every
ring value. -/
theorem c8_perm_same_severity (s1 s2 : List (String × Member)) (ring : String)
    (hp : s1.Perm s2) :
    (evaluate_results s1 ring).1 = (evaluate_results s2 ring).1 := by
  rw [evaluate_results_fst, evaluate_results_fst]
  rw [show has_bad s1 = has_bad s2 from any_of_perm hp]

/-- Witness for C8: the two-member stack and its swapped ordering. -/
theorem c8_perm_same_severity_witness :
    (evaluate_results example_stack "1").1 = (evaluate_results example_stack_swapped "1").1 :=
  c8_perm_same_severity example_stack example_stack_swapped "1" (by decide)

/-- C9: for every member mapping and ring value the severity returned by
`evaluate_results` is OK, WARNING or CRITICAL -- never UNKNOWN. -/
theorem c9_severity_lattice (stack : List (String × Member)) (ring : String) :
    (evaluate_results stack ring).1 = OK ∨ (evaluate_results stack ring).1 = WARNING ∨
      (evaluate_results stack ring).1 = CRITICAL := by
  rw [evaluate_results_fst]
  split_ifs <;> simp

/-- C10: on the empty member mapping `evaluate_results` succeeds: with
ring "1" it returns `(OK, "Members: Stack Ring is redundant")`, and with
any other ring value `(WARNING, "Members: Stack Ring is non-redundant")`. -/
theorem c10_empty_stack (ring : String) :
    evaluate_results [] "1" = (OK, "Members: Stack Ring is redundant") ∧
    (ring ≠ "1" →
      evaluate_results [] ring = (WARNING, "Members: Stack Ring is non-redundant")) := by
  constructor
  · rfl
  · intro hr
    have h1 : (evaluate_results ([] : List (String × Member)) ring).1 = WARNING := by
      rw [evaluate_results_fst, if_neg hr]
      simp [has_bad]
    have h2 : (evaluate_results ([] : List (String × Member)) ring).2 =
        "Members: Stack Ring is non-redundant" := by
      rw [evaluate_results_snd, if_neg hr]
      rfl
    exact Prod.ext_iff.mpr ⟨h1, h2⟩

/-- Witness for C10 at ring "0". -/
theorem c10_empty_stack_witness :
    evaluate_results [] "0" = (WARNING, "Members: Stack Ring is non-redundant") :=
  (c10_empty_stack "0").2 (by decide)

end CheckCiscoStack
